import Mathlib

/-!
Shallow embedding of the CHIP-8 interpreter core (src/cpu.rs, src/operation.rs,
src/main.rs) of the fvilers/chip8 repository.

Conventions of the embedding:
* Machine integers are modelled as `Nat` with explicit reduction modulo
  2^8 (registers, memory bytes) or 2^16 (program counter, index register)
  exactly where the Rust code wraps (`overflowing_add`, `overflowing_sub`,
  shifts, release-mode `+=`).
* The byte arrays `ram` (4096 bytes), `vram` (64*32 = 2048 bytes) and the
  register file `v` (16 bytes) are modelled as total functions `Nat → Nat`;
  all addresses reached by the claims stay inside the arrays' bounds.
* Rust panics (the explicit panic in decode, the unimplemented arms of
  execute, and the expect on popping an empty Vec) abort the process; a
  function that can panic is modelled as returning an `Option`, with
  `none` standing for the abort.
* `rand::random::<u8>()` is nondeterministic; `execute` takes the sampled
  byte as an explicit argument `rnd`, used only by the random operation.
-/

namespace Chip8

/-- SCREEN_WIDTH from src/main.rs. -/
def SCREEN_WIDTH : Nat := 64

/-- SCREEN_HEIGHT from src/main.rs. -/
def SCREEN_HEIGHT : Nat := 32

/-- RAM_SIZE from src/cpu.rs. -/
def RAM_SIZE : Nat := 0x1000

/-- VRAM_SIZE from src/cpu.rs: SCREEN_WIDTH * SCREEN_HEIGHT. -/
def VRAM_SIZE : Nat := SCREEN_WIDTH * SCREEN_HEIGHT

/-- Pointwise update of a function-modelled byte array at one index. -/
def upd (f : Nat → Nat) (k a : Nat) : Nat → Nat :=
  fun n => if n = k then a else f n

/-- The Operation enum from src/operation.rs, in the variant shapes that
src/cpu.rs constructs and consumes (the single-field shift variants). -/
inductive Operation where
  | CallMachineCodeRoutineAt (address : Nat)
  | ClearScreen
  | ReturnFromSubroutine
  | JumpTo (address : Nat)
  | CallSubroutineAt (address : Nat)
  | SkipNextInstructionIfVXEquals (x value : Nat)
  | SkipNextInstructionIfVXNotEquals (x value : Nat)
  | SkipNextInstructionIfVXEqualsVY (x y : Nat)
  | SetVXTo (x value : Nat)
  | AddToVX (x value : Nat)
  | SetVXToVY (x y : Nat)
  | SetVXToVXOrVY (x y : Nat)
  | SetVXToVXAndVY (x y : Nat)
  | SetVXToVXXorVY (x y : Nat)
  | AddVYToVX (x y : Nat)
  | SubtractVYFromVX (x y : Nat)
  | RightShiftVX (x : Nat)
  | SubtractVXFromVY (x y : Nat)
  | LeftShiftVX (x : Nat)
  | SkipNextInstructionIfVXNotEqualsVY (x y : Nat)
  | SetITo (address : Nat)
  | JumpToPlusV0 (address : Nat)
  | SetVXToVXAndRandomNumber (x value : Nat)
  | DrawSpriteAt (x y height : Nat)
  | SkipNextInstructionIfKeyInVXPressed (x : Nat)
  | SkipNextInstructionIfKeyInVXNotPressed (x : Nat)
  | SetVXToDelayTimer (x : Nat)
  | AwaitKeyPress (x : Nat)
  | SetDelayTimerToVX (x : Nat)
  | SetSoundTimerToVX (x : Nat)
  | AddVXToI (x : Nat)
  | SetIToSpriteLocationForCharacterInVX (x : Nat)
  | StoreBinaryCodedDecimalOfVX (x : Nat)
  | StoreFromV0ToVX (x : Nat)
  | FillFromV0ToVX (x : Nat)
deriving DecidableEq

/-- The Cpu struct from src/cpu.rs. The call stack is a `Vec<u16>` in the
source; here the most recently pushed address is kept at the head of the
list (`push` is cons, `pop` takes the head). -/
structure Cpu where
  ram : Nat → Nat
  pc : Nat
  i : Nat
  stack : List Nat
  v : Nat → Nat
  vram : Nat → Nat
  vramChanged : Bool

/-- Cpu::new from src/cpu.rs. The explicit guard panics when the ROM is
larger than RAM_SIZE; in addition the copy loop `ram[i] = byte` starting
at i = 0x200 panics (array index out of bounds) when 0x200 + rom.len()
exceeds RAM_SIZE. Both aborts are modelled as `none`. -/
def Cpu.new (rom : List Nat) : Option Cpu :=
  if RAM_SIZE < rom.length then none
  else if RAM_SIZE < 0x200 + rom.length then none
  else some
    { ram := fun a => if 0x200 ≤ a ∧ a < 0x200 + rom.length then rom.getD (a - 0x200) 0 else 0
      pc := 0x200
      i := 0x00
      stack := []
      v := fun _ => 0x00
      vram := fun _ => 0x00
      vramChanged := false }

/-- get_nibbles from src/cpu.rs: the four 4-bit fields of a 16-bit word. -/
def getNibbles (value : Nat) : Nat × Nat × Nat × Nat :=
  ((value &&& 0xF000) >>> 0xC,
   (value &&& 0x0F00) >>> 0x8,
   (value &&& 0x00F0) >>> 0x4,
   value &&& 0x000F)

/-- Cpu::decode from src/cpu.rs, as a function of the four nibbles and the
raw instruction word. The arms appear in source order (Rust match is
first-match); the final catch-all arm is the
`panic!("Unsupported instruction")` and is modelled as `none`.
The Rust method takes `&self` but never reads it. -/
def decodeNibbles (instruction n1 n2 n3 n4 : Nat) : Option Operation :=
  match n1, n2, n3, n4 with
  | 0x00, 0x00, 0x0E, 0x00 => some Operation.ClearScreen
  | 0x01, _, _, _ => some (Operation.JumpTo (instruction &&& 0x0FFF))
  | 0x02, _, _, _ => some (Operation.CallSubroutineAt (instruction &&& 0x0FFF))
  | 0x00, 0x00, 0x0E, 0x0E => some Operation.ReturnFromSubroutine
  | 0x03, x, _, _ => some (Operation.SkipNextInstructionIfVXEquals x (instruction &&& 0x00FF))
  | 0x04, x, _, _ => some (Operation.SkipNextInstructionIfVXNotEquals x (instruction &&& 0x00FF))
  | 0x05, x, y, 0x00 => some (Operation.SkipNextInstructionIfVXEqualsVY x y)
  | 0x06, x, _, _ => some (Operation.SetVXTo x (instruction &&& 0x00FF))
  | 0x07, x, _, _ => some (Operation.AddToVX x (instruction &&& 0x00FF))
  | 0x08, x, y, 0x00 => some (Operation.SetVXToVY x y)
  | 0x08, x, y, 0x01 => some (Operation.SetVXToVXOrVY x y)
  | 0x08, x, y, 0x02 => some (Operation.SetVXToVXAndVY x y)
  | 0x08, x, y, 0x03 => some (Operation.SetVXToVXXorVY x y)
  | 0x08, x, y, 0x04 => some (Operation.AddVYToVX x y)
  | 0x08, x, y, 0x05 => some (Operation.SubtractVYFromVX x y)
  | 0x08, x, _, 0x06 => some (Operation.RightShiftVX x)
  | 0x08, x, y, 0x07 => some (Operation.SubtractVXFromVY x y)
  | 0x08, x, _, 0x0E => some (Operation.LeftShiftVX x)
  | 0x09, x, y, 0x00 => some (Operation.SkipNextInstructionIfVXNotEqualsVY x y)
  | 0x0A, _, _, _ => some (Operation.SetITo (instruction &&& 0x0FFF))
  | 0x0B, _, _, _ => some (Operation.JumpToPlusV0 (instruction &&& 0x0FFF))
  | 0x0C, x, _, _ => some (Operation.SetVXToVXAndRandomNumber x (instruction &&& 0x00FF))
  | 0x0D, x, y, n => some (Operation.DrawSpriteAt x y n)
  | 0x0E, x, 0x09, 0x0E => some (Operation.SkipNextInstructionIfKeyInVXPressed x)
  | 0x0E, x, 0x0A, 0x01 => some (Operation.SkipNextInstructionIfKeyInVXNotPressed x)
  | 0x0F, x, 0x00, 0x07 => some (Operation.SetVXToDelayTimer x)
  | 0x0F, x, 0x00, 0x0A => some (Operation.AwaitKeyPress x)
  | 0x0F, x, 0x01, 0x05 => some (Operation.SetDelayTimerToVX x)
  | 0x0F, x, 0x01, 0x08 => some (Operation.SetSoundTimerToVX x)
  | 0x0F, x, 0x01, 0x0E => some (Operation.AddVXToI x)
  | 0x0F, x, 0x02, 0x09 => some (Operation.SetIToSpriteLocationForCharacterInVX x)
  | 0x0F, x, 0x03, 0x03 => some (Operation.StoreBinaryCodedDecimalOfVX x)
  | 0x0F, x, 0x05, 0x05 => some (Operation.StoreFromV0ToVX x)
  | 0x0F, x, 0x06, 0x05 => some (Operation.FillFromV0ToVX x)
  | 0x00, _, _, _ => some (Operation.CallMachineCodeRoutineAt (instruction &&& 0x0FFF))
  | _, _, _, _ => none

/-- Cpu::decode applied to an instruction word. -/
def decode (instruction : Nat) : Option Operation :=
  match getNibbles instruction with
  | (n1, n2, n3, n4) => decodeNibbles instruction n1 n2 n3 n4

/-- Inner bit loop of the DrawSpriteAt arm in Cpu::execute (src/cpu.rs):
for each of the remaining bits (`fuel` counts them, starting at 8) the
sprite pixel is extracted most-significant bit first, ORed into the flag
register when it collides, XORed into vram at position
y * SCREEN_HEIGHT + x, and the loop breaks once x reaches the last
column. The register file is threaded whole because the flag write
`self.v[0x0F] |= ...` lands in the same array the row loop reads. -/
def drawRow (spriteRow y : Nat) : Nat → Nat → (Nat → Nat) → (Nat → Nat) → Nat →
    ((Nat → Nat) × (Nat → Nat))
  | _, _, v, vram, 0 => (v, vram)
  | bit, x, v, vram, fuel + 1 =>
    let pixel := (spriteRow >>> (7 - bit)) &&& 1
    let screenPosition := y * SCREEN_HEIGHT + x
    let v1 := upd v 0x0F (v 0x0F ||| (pixel &&& vram screenPosition))
    let vram1 := upd vram screenPosition (vram screenPosition ^^^ pixel)
    if x = SCREEN_WIDTH - 1 then (v1, vram1)
    else drawRow spriteRow y (bit + 1) (x + 1) v1 vram1 fuel

/-- Outer row loop of the DrawSpriteAt arm in Cpu::execute (src/cpu.rs):
`fuel` counts the remaining rows (starting at `height`); each row reloads
the start column from the register file (`self.v[x] % SCREEN_WIDTH`),
reads the sprite byte at I + row, runs the 8-bit inner loop, and breaks
once y reaches the last screen row. -/
def drawRows (ram : Nat → Nat) (i xreg : Nat) : Nat → Nat → (Nat → Nat) → (Nat → Nat) →
    Nat → ((Nat → Nat) × (Nat → Nat))
  | _, _, v, vram, 0 => (v, vram)
  | row, y, v, vram, fuel + 1 =>
    let x := v xreg % SCREEN_WIDTH
    let spriteRow := ram (i + row)
    let p := drawRow spriteRow y 0 x v vram 8
    if y = SCREEN_HEIGHT - 1 then p
    else drawRows ram i xreg (row + 1) (y + 1) p.1 p.2 fuel

/-- Store loop of the StoreFromV0ToVX arm (src/cpu.rs):
`for n in 0..=x { self.ram[n] = self.v[n] }` — the registers are written
to the bare addresses 0..=x, not to I..I+x. -/
def storeLoop (v ram : Nat → Nat) : Nat → (Nat → Nat)
  | 0 => upd ram 0 (v 0)
  | n + 1 => upd (storeLoop v ram n) (n + 1) (v (n + 1))

/-- Fill loop of the FillFromV0ToVX arm (src/cpu.rs):
`for n in 0..=x { self.v[n] = self.ram[n] }`. -/
def fillLoop (ram v : Nat → Nat) : Nat → (Nat → Nat)
  | 0 => upd v 0 (ram 0)
  | n + 1 => upd (fillLoop ram v n) (n + 1) (ram (n + 1))

/-- Cpu::execute from src/cpu.rs. `rnd` is the byte sampled by
`rand::random::<u8>()`, used only by SetVXToVXAndRandomNumber. The
`unimplemented!()` arms and the `expect` on popping an empty stack are
panics, modelled as `none`; every other arm returns `some` of the updated
state. 16-bit counters wrap modulo 0x10000 (release semantics of `+=`). -/
def execute (st : Cpu) (op : Operation) (rnd : Nat) : Option Cpu :=
  match op with
  | Operation.CallMachineCodeRoutineAt _ => some st
  | Operation.ClearScreen =>
    some { st with vram := fun _ => 0, vramChanged := true }
  | Operation.ReturnFromSubroutine =>
    match st.stack with
    | [] => none
    | p :: rest => some { st with pc := p, stack := rest }
  | Operation.JumpTo address => some { st with pc := address }
  | Operation.CallSubroutineAt address =>
    some { st with stack := st.pc :: st.stack, pc := address }
  | Operation.SkipNextInstructionIfVXEquals x value =>
    if st.v x = value then some { st with pc := (st.pc + 2) % 0x10000 } else some st
  | Operation.SkipNextInstructionIfVXNotEquals x value =>
    if st.v x ≠ value then some { st with pc := (st.pc + 2) % 0x10000 } else some st
  | Operation.SkipNextInstructionIfVXEqualsVY x y =>
    if st.v x = st.v y then some { st with pc := (st.pc + 2) % 0x10000 } else some st
  | Operation.SetVXTo x value => some { st with v := upd st.v x value }
  | Operation.AddToVX x value =>
    some { st with v := upd st.v x ((st.v x + value) % 0x100) }
  | Operation.SetVXToVY x y => some { st with v := upd st.v x (st.v y) }
  | Operation.SetVXToVXOrVY x y =>
    some { st with v := upd st.v x (st.v x ||| st.v y) }
  | Operation.SetVXToVXAndVY x y =>
    some { st with v := upd st.v x (st.v x &&& st.v y) }
  | Operation.SetVXToVXXorVY x y =>
    some { st with v := upd st.v x (st.v x ^^^ st.v y) }
  | Operation.AddVYToVX x y =>
    let result := (st.v x + st.v y) % 0x100
    let overflow := 0x100 ≤ st.v x + st.v y
    let v1 := upd st.v x result
    some { st with v := upd v1 0x0F (if overflow then 1 else 0) }
  | Operation.SubtractVYFromVX x y =>
    let result := (st.v x + 0x100 - st.v y) % 0x100
    let overflow := st.v x < st.v y
    let v1 := upd st.v x result
    some { st with v := upd v1 0x0F (if overflow then 0 else 1) }
  | Operation.RightShiftVX x =>
    let v1 := upd st.v 0x0F (st.v x &&& 1)
    some { st with v := upd v1 x (v1 x >>> 1) }
  | Operation.SubtractVXFromVY x y =>
    let result := (st.v y + 0x100 - st.v x) % 0x100
    let overflow := st.v y < st.v x
    let v1 := upd st.v x result
    some { st with v := upd v1 0x0F (if overflow then 0 else 1) }
  | Operation.LeftShiftVX x =>
    let v1 := upd st.v 0x0F (st.v x >>> 3)
    some { st with v := upd v1 x ((v1 x <<< 1) % 0x100) }
  | Operation.SkipNextInstructionIfVXNotEqualsVY x y =>
    if st.v x ≠ st.v y then some { st with pc := (st.pc + 2) % 0x10000 } else some st
  | Operation.SetITo address => some { st with i := address }
  | Operation.JumpToPlusV0 address =>
    some { st with pc := (address + st.v 0) % 0x10000 }
  | Operation.SetVXToVXAndRandomNumber x value =>
    some { st with v := upd st.v x (rnd &&& value) }
  | Operation.DrawSpriteAt x y height =>
    let y0 := st.v y % SCREEN_HEIGHT
    let v1 := upd st.v 0x0F 0
    let p := drawRows st.ram st.i x 0 y0 v1 st.vram height
    some { st with v := p.1, vram := p.2, vramChanged := true }
  | Operation.SkipNextInstructionIfKeyInVXPressed _ => none
  | Operation.SkipNextInstructionIfKeyInVXNotPressed _ => none
  | Operation.SetVXToDelayTimer _ => none
  | Operation.AwaitKeyPress _ => none
  | Operation.SetDelayTimerToVX _ => none
  | Operation.SetSoundTimerToVX _ => none
  | Operation.AddVXToI x => some { st with i := (st.i + st.v x) % 0x10000 }
  | Operation.SetIToSpriteLocationForCharacterInVX _ => none
  | Operation.StoreBinaryCodedDecimalOfVX x =>
    let n := st.v x
    let ram1 := upd st.ram st.i (n / 100)
    let ram2 := upd ram1 (st.i + 1) (n % 100 / 10)
    some { st with ram := upd ram2 (st.i + 2) (n % 10) }
  | Operation.StoreFromV0ToVX x =>
    some { st with ram := storeLoop st.v st.ram x, i := (st.i + (1 + x)) % 0x10000 }
  | Operation.FillFromV0ToVX x =>
    some { st with v := fillLoop st.ram st.v x, i := (st.i + (1 + x)) % 0x10000 }

/-- Cpu::fetch from src/cpu.rs: read the big-endian instruction word at PC
and advance PC by 2. -/
def fetch (st : Cpu) : Nat × Cpu :=
  let high := st.ram st.pc
  let low := st.ram (st.pc + 1)
  ((high <<< 8) ||| low, { st with pc := (st.pc + 2) % 0x10000 })

/-- Cpu::tick from src/cpu.rs: fetch, decode, execute, and report whether
vram changed. A decode or execute panic propagates as `none`. -/
def tick (st : Cpu) (rnd : Nat) : Option (Cpu × Bool) :=
  let p := fetch st
  match decode p.1 with
  | none => none
  | some op =>
    match execute p.2 op rnd with
    | none => none
    | some st2 => some (st2, st2.vramChanged)

/-- Screen layout used by Cpu::draw (src/cpu.rs) together with main.rs:
vram is consumed in index order and blitted to a pixel surface of width
SCREEN_WIDTH, so the framebuffer cell of column c and row r is the vram
index r * SCREEN_WIDTH + c. -/
def screenIndex (col row : Nat) : Nat := row * SCREEN_WIDTH + col

/-! Helper lemmas about the function-array primitives. -/

/-- Reading an updated array at the updated index yields the new value. -/
theorem upd_self (f : Nat → Nat) (k a : Nat) : upd f k a k = a := by
  simp [upd]

/-- Reading an updated array away from the updated index is unchanged. -/
theorem upd_ne (f : Nat → Nat) (k a n : Nat) (h : n ≠ k) : upd f k a n = f n := by
  simp [upd, h]

/-- Lookup characterization of the StoreFromV0ToVX write loop: addresses
0..=x hold the registers, every other address is untouched RAM. -/
theorem storeLoop_lookup (v ram : Nat → Nat) (x n : Nat) :
    storeLoop v ram x n = if n ≤ x then v n else ram n := by
  induction x with
  | zero =>
    unfold storeLoop upd
    rcases Nat.eq_zero_or_pos n with h | h
    · simp [h]
    · have h0 : n ≠ 0 := by omega
      simp [h0, Nat.not_le.mpr h]
  | succ k ih =>
    unfold storeLoop upd
    rcases Nat.lt_trichotomy n (k + 1) with h | h | h
    · have h1 : n ≠ k + 1 := by omega
      simp [h1, ih, Nat.le_of_lt_succ h, Nat.le_succ_of_le (Nat.le_of_lt_succ h)]
    · simp [h]
    · have h1 : n ≠ k + 1 := by omega
      have h2 : ¬ n ≤ k := by omega
      have h3 : ¬ n ≤ k + 1 := by omega
      simp [h1, ih, h2, h3]

/-- Lookup characterization of the FillFromV0ToVX read loop: registers
0..=x hold the RAM bytes, every other register is untouched. -/
theorem fillLoop_lookup (ram v : Nat → Nat) (x n : Nat) :
    fillLoop ram v x n = if n ≤ x then ram n else v n := by
  induction x with
  | zero =>
    unfold fillLoop upd
    rcases Nat.eq_zero_or_pos n with h | h
    · simp [h]
    · have h0 : n ≠ 0 := by omega
      simp [h0, Nat.not_le.mpr h]
  | succ k ih =>
    unfold fillLoop upd
    rcases Nat.lt_trichotomy n (k + 1) with h | h | h
    · have h1 : n ≠ k + 1 := by omega
      simp [h1, ih, Nat.le_of_lt_succ h, Nat.le_succ_of_le (Nat.le_of_lt_succ h)]
    · simp [h]
    · have h1 : n ≠ k + 1 := by omega
      have h2 : ¬ n ≤ k := by omega
      have h3 : ¬ n ≤ k + 1 := by omega
      simp [h1, ih, h2, h3]

/-! Concrete states used by the per-claim evaluations. -/

/-- State for C1: index register at 0x400, one sprite byte 0x80 there,
the draw operation's x register (V0) holds 0 and y register (V1) holds 1,
screen clear. -/
def drawState : Cpu :=
  { ram := fun a => if a = 0x400 then 0x80 else 0
    pc := 0x200
    i := 0x400
    stack := []
    v := fun n => if n = 1 then 1 else 0
    vram := fun _ => 0
    vramChanged := false }

/-- State for C2: index register at 0x300, V0 holds 7, RAM clear. -/
def storeState : Cpu :=
  { ram := fun _ => 0
    pc := 0x200
    i := 0x300
    stack := []
    v := fun n => if n = 0 then 7 else 0
    vram := fun _ => 0
    vramChanged := false }

/-- State for C4: a call stack already holding 16 return addresses. -/
def fullStackState : Cpu :=
  { ram := fun _ => 0
    pc := 0x200
    i := 0
    stack := List.replicate 16 0x200
    v := fun _ => 0
    vram := fun _ => 0
    vramChanged := false }

/-- State for C5: V0 holds 0xFF (both shifted-out bits set). -/
def shiftState : Cpu :=
  { ram := fun _ => 0
    pc := 0x200
    i := 0
    stack := []
    v := fun n => if n = 0 then 0xFF else 0
    vram := fun _ => 0
    vramChanged := false }

/-- State for C6's counterexample: every register zero. -/
def zeroRegState : Cpu :=
  { ram := fun _ => 0
    pc := 0x200
    i := 0
    stack := []
    v := fun _ => 0
    vram := fun _ => 0
    vramChanged := false }

/-- State for C6's witness: V0 holds 200, V1 holds 100. -/
def arithState : Cpu :=
  { ram := fun _ => 0
    pc := 0x200
    i := 0
    stack := []
    v := fun n => if n = 0 then 200 else if n = 1 then 100 else 0
    vram := fun _ => 0
    vramChanged := false }

/-- State for C7's witness: index register at 0x250, V0 holds 5, V1
holds 9. -/
def roundtripState : Cpu :=
  { ram := fun _ => 0
    pc := 0x200
    i := 0x250
    stack := []
    v := fun n => if n = 0 then 5 else if n = 1 then 9 else 0
    vram := fun _ => 0
    vramChanged := false }

/-! Claim theorems. -/

/-- Claim C1 (code bug, evaluated at the failing input): drawing a
one-row sprite 0x80 with VX = 0 and VY = 1 must, per the claim, XOR the
framebuffer cell of column 0 and row 1 — vram index
screenIndex 0 1 = 1 * SCREEN_WIDTH + 0 = 64 under the row-major layout
that Cpu::draw and main.rs blit to the screen. The code instead computes
the position as y * SCREEN_HEIGHT + x = 32 and leaves index 64 dark:
the sprite lands on the wrong screen cell for every row below row 0. -/
theorem C1_draw_wrong_screen_stride :
    ∃ st, execute drawState (Operation.DrawSpriteAt 0 1 1) 0 = some st ∧
      st.vram 32 = 1 ∧ st.vram (screenIndex 0 1) = 0 ∧
      st.v 0x0F = 0 ∧ st.vramChanged = true :=
  ⟨_, rfl, by decide, by decide, by decide, rfl⟩

/-- Claim C2 (code bug, evaluated at the failing input): executing
StoreFromV0ToVX with X = 0 while I = 0x300 and V0 = 7 must, per the
claim, write 7 to memory address I = 0x300. The code writes register n
to bare address n, so address 0 receives 7, address 0x300 stays 0, and
I is unconditionally advanced to 0x301 (there is no modern quirk mode
that leaves I unchanged). -/
theorem C2_store_ignores_index_register :
    ∃ st, execute storeState (Operation.StoreFromV0ToVX 0) 0 = some st ∧
      st.ram 0 = 7 ∧ st.ram 0x300 = 0 ∧ st.i = 0x301 :=
  ⟨_, rfl, by decide, by decide, by decide⟩

/-- Claim C3 (counterexample): the instruction word 0x5001 matches no
arm of the opcode table, and decoding it does not produce a recoverable
error value — it hits the unsupported-instruction panic, modelled as
`none`, which aborts the host process. -/
theorem C3_counterexample : decode 0x5001 = none := rfl

/-- Claim C3 (amended): every instruction word whose first nibble is 5
and whose last nibble is nonzero lies outside the closed opcode table,
and decoding it panics (aborts the process, modelled as `none`) instead
of returning a recoverable DecodeError value. -/
theorem C3_unmatched_pattern_panics (w : Nat)
    (h1 : (getNibbles w).1 = 5) (h4 : (getNibbles w).2.2.2 ≠ 0) :
    decode w = none := by
  unfold decode
  rcases hG : getNibbles w with ⟨n1, n2, n3, n4⟩
  rw [hG] at h1 h4
  simp only at h1 h4
  subst h1
  cases n4 with
  | zero => exact absurd rfl h4
  | succ m => rfl

/-- Claim C3 (witness): the amended theorem applied at the concrete
instruction word 0x5002. -/
theorem C3_unmatched_pattern_panics_witness : decode 0x5002 = none :=
  C3_unmatched_pattern_panics 0x5002 (by decide) (by decide)

/-- Claim C4 (counterexample): with the call stack already holding 16
return addresses, a subroutine call still succeeds — the Vec-backed
stack is unbounded, so no StackOverflow error is ever produced. -/
theorem C4_counterexample :
    (execute fullStackState (Operation.CallSubroutineAt 0x300) 0).isSome = true :=
  rfl

/-- Claim C4 (amended): the call stack is unbounded — a subroutine call
always pushes the current PC and jumps, whatever the stack length — and
a return on an empty stack hits the expect panic on Vec::pop (modelled
as `none`), aborting the process rather than returning a recoverable
StackUnderflow error. -/
theorem C4_stack_unbounded_and_empty_pop_panics (st : Cpu) (a rnd : Nat) :
    execute st (Operation.CallSubroutineAt a) rnd =
      some { st with stack := st.pc :: st.stack, pc := a } ∧
    execute { st with stack := [] } Operation.ReturnFromSubroutine rnd = none :=
  ⟨rfl, rfl⟩

/-- Claim C5 (code bug, evaluated at the failing input): left-shifting
V0 = 0xFF must, per the claim, put the shifted-out bit 7 (here 1) into
V15. The code computes the flag as VX >> 3, so V15 ends as 31 — not a
0/1 bit at all — while V0 correctly becomes 0xFE. (The legacy quirk mode
that first sets VX to VY is also absent: its TODO is unimplemented.) -/
theorem C5_left_shift_flag_wrong :
    ∃ st, execute shiftState (Operation.LeftShiftVX 0) 0 = some st ∧
      st.v 0x0F = 31 ∧ st.v 0 = 0xFE :=
  ⟨_, rfl, by decide, by decide⟩

/-- Claim C6 (counterexample): AddToVX with X = 15 adds the immediate
into the flag register itself, so V15 changes from 0 to 1 — the claim's
universally quantified "AddToVX leaves V15 unchanged" fails at X = 15. -/
theorem C6_counterexample :
    ∃ st, execute zeroRegState (Operation.AddToVX 15 1) 0 = some st ∧
      zeroRegState.v 15 = 0 ∧ st.v 15 = 1 :=
  ⟨_, rfl, by decide, by decide⟩

/-- Claim C6 (amended): for X ≠ 15 and byte-valued registers, AddToVX
leaves the flag register V15 unchanged and stores the 8-bit wrapped sum
in VX; AddVYToVX sets V15 to 1 iff VX + VY overflows 255 (and stores the
wrapped sum in VX); SubtractVYFromVX sets V15 to 1 iff no borrow occurs
(VY ≤ VX) and stores the wrapped difference in VX. When X = 15 the flag
assignment overwrites the stored result (see Claim C10). -/
theorem C6_arithmetic_flags (st : Cpu) (x y value rnd : Nat) (hx : x ≠ 15)
    (hvx : st.v x < 0x100) (hvy : st.v y < 0x100) :
    (∃ st1, execute st (Operation.AddToVX x value) rnd = some st1 ∧
      st1.v 15 = st.v 15 ∧ st1.v x = (st.v x + value) % 0x100) ∧
    (∃ st2, execute st (Operation.AddVYToVX x y) rnd = some st2 ∧
      st2.v 15 = (if 0x100 ≤ st.v x + st.v y then 1 else 0) ∧
      st2.v x = (st.v x + st.v y) % 0x100) ∧
    (∃ st3, execute st (Operation.SubtractVYFromVX x y) rnd = some st3 ∧
      st3.v 15 = (if st.v y ≤ st.v x then 1 else 0) ∧
      st3.v x = (st.v x + 0x100 - st.v y) % 0x100) := by
  have h15 : (15 : Nat) ≠ x := Ne.symm hx
  refine ⟨⟨_, rfl, ?_, ?_⟩, ⟨_, rfl, ?_, ?_⟩, ⟨_, rfl, ?_, ?_⟩⟩ <;> dsimp only
  · exact upd_ne st.v x _ 15 h15
  · exact upd_self st.v x _
  · rw [upd_self]
  · rw [upd_ne _ 15 _ x hx, upd_self]
  · rw [upd_self]
    rcases Nat.lt_or_ge (st.v x) (st.v y) with h | h
    · rw [if_pos h, if_neg (by omega)]
    · rw [if_neg (by omega), if_pos (by omega)]
  · rw [upd_ne _ 15 _ x hx, upd_self]

/-- Claim C6 (witness): the amended theorem applied with X = 0, Y = 1,
V0 = 200, V1 = 100, immediate 5. -/
theorem C6_arithmetic_flags_witness :
    (∃ st1, execute arithState (Operation.AddToVX 0 5) 0 = some st1 ∧
      st1.v 15 = arithState.v 15 ∧ st1.v 0 = (arithState.v 0 + 5) % 0x100) ∧
    (∃ st2, execute arithState (Operation.AddVYToVX 0 1) 0 = some st2 ∧
      st2.v 15 = (if 0x100 ≤ arithState.v 0 + arithState.v 1 then 1 else 0) ∧
      st2.v 0 = (arithState.v 0 + arithState.v 1) % 0x100) ∧
    (∃ st3, execute arithState (Operation.SubtractVYFromVX 0 1) 0 = some st3 ∧
      st3.v 15 = (if arithState.v 1 ≤ arithState.v 0 then 1 else 0) ∧
      st3.v 0 = (arithState.v 0 + 0x100 - arithState.v 1) % 0x100) :=
  C6_arithmetic_flags arithState 0 1 5 0 (by decide) (by decide) (by decide)

/-- Claim C7 (counterexample): with I = 0x300 and X = 0, StoreFromV0ToVX
followed by FillFromV0ToVX leaves I = 0x302 — advanced by 2(X+1) — which
is neither the claim's modern-mode value (unchanged, 0x300) nor its
legacy-mode value (advanced by X+1, 0x301): the code has no quirk modes
and both operations increment I. -/
theorem C7_counterexample :
    ∃ st1 st2,
      execute storeState (Operation.StoreFromV0ToVX 0) 0 = some st1 ∧
      execute st1 (Operation.FillFromV0ToVX 0) 0 = some st2 ∧
      st2.i = 0x302 ∧ st2.i ≠ 0x300 ∧ st2.i ≠ 0x301 :=
  ⟨_, _, rfl, rfl, by decide, by decide, by decide⟩

/-- Claim C7 (amended): StoreFromV0ToVX followed immediately by
FillFromV0ToVX with the same X restores the original value of every
register V0..VX (both loops address memory at the bare offsets 0..X, so
the fill reads back exactly what the store wrote); the final index
register is advanced by 2(X+1) modulo 2^16, because both operations
increment I by X+1 — there are no quirk modes. -/
theorem C7_store_fill_roundtrip (st : Cpu) (x n rnd : Nat) (hn : n ≤ x) :
    ∃ st1 st2,
      execute st (Operation.StoreFromV0ToVX x) rnd = some st1 ∧
      execute st1 (Operation.FillFromV0ToVX x) rnd = some st2 ∧
      st2.v n = st.v n ∧
      st2.i = (st.i + 2 * (x + 1)) % 0x10000 := by
  refine ⟨_, _, rfl, rfl, ?_, ?_⟩
  · show fillLoop (storeLoop st.v st.ram x) st.v x n = st.v n
    rw [fillLoop_lookup, if_pos hn, storeLoop_lookup, if_pos hn]
  · show ((st.i + (1 + x)) % 0x10000 + (1 + x)) % 0x10000 = (st.i + 2 * (x + 1)) % 0x10000
    rw [Nat.mod_add_mod]
    congr 1
    omega

/-- Claim C7 (witness): the amended theorem applied at X = 1, register
V0, with I = 0x250. -/
theorem C7_store_fill_roundtrip_witness :
    ∃ st1 st2,
      execute roundtripState (Operation.StoreFromV0ToVX 1) 0 = some st1 ∧
      execute st1 (Operation.FillFromV0ToVX 1) 0 = some st2 ∧
      st2.v 0 = roundtripState.v 0 ∧
      st2.i = (roundtripState.i + 2 * (1 + 1)) % 0x10000 :=
  C7_store_fill_roundtrip roundtripState 1 0 0 (by decide)

/-- Claim C8 (code bug, evaluated at every input): the three timer
operations are unimplemented — executing any of them hits the
unimplemented-code panic (modelled as `none`) for every state, register
index and random byte; no copy between VX and a timer register happens
(the Cpu struct has no timer fields at all). -/
theorem C8_timer_operations_unimplemented (st : Cpu) (x rnd : Nat) :
    execute st (Operation.SetVXToDelayTimer x) rnd = none ∧
    execute st (Operation.SetDelayTimerToVX x) rnd = none ∧
    execute st (Operation.SetSoundTimerToVX x) rnd = none :=
  ⟨rfl, rfl, rfl⟩

/-- Claim C9 (code bug, evaluated at the failing input): constructing
the VM from the two-byte program image [2, 3] copies the program to the
fixed base 0x200, but every other memory address — including any
would-be glyph-table region — is zero: Cpu::new writes no glyph table,
so no fixed memory region holds non-zero glyph bitmaps. -/
theorem C9_no_glyph_table_written :
    ∃ st, Cpu.new [2, 3] = some st ∧
      ∀ a, st.ram a = if a = 0x200 then 2 else if a = 0x201 then 3 else 0 := by
  refine ⟨_, rfl, fun a => ?_⟩
  show (if 0x200 ≤ a ∧ a < 0x200 + [2, 3].length then [2, 3].getD (a - 0x200) 0 else 0) = _
  by_cases h1 : a = 0x200
  · subst h1; rfl
  · by_cases h2 : a = 0x201
    · subst h2; rfl
    · have h3 : ¬ (0x200 ≤ a ∧ a < 0x200 + [2, 3].length) := by
        simp only [List.length_cons, List.length_nil]; omega
      rw [if_neg h3, if_neg h1, if_neg h2]

/-- Claim C10 (confirmed): for every Y, state and random byte, the three
flag-affecting arithmetic operations executed with X = 15 leave V15
holding the carry/borrow flag — 0 or 1 — because the flag assignment to
V15 happens after the result assignment to VX and overwrites it when the
destination is the flag register itself. -/
theorem C10_flag_assignment_overwrites_result (st : Cpu) (y rnd : Nat) :
    (∃ s1, execute st (Operation.AddVYToVX 15 y) rnd = some s1 ∧
      s1.v 15 = (if 0x100 ≤ st.v 15 + st.v y then 1 else 0) ∧ s1.v 15 ≤ 1) ∧
    (∃ s2, execute st (Operation.SubtractVYFromVX 15 y) rnd = some s2 ∧
      s2.v 15 = (if st.v 15 < st.v y then 0 else 1) ∧ s2.v 15 ≤ 1) ∧
    (∃ s3, execute st (Operation.SubtractVXFromVY 15 y) rnd = some s3 ∧
      s3.v 15 = (if st.v y < st.v 15 then 0 else 1) ∧ s3.v 15 ≤ 1) := by
  refine ⟨⟨_, rfl, ?_, ?_⟩, ⟨_, rfl, ?_, ?_⟩, ⟨_, rfl, ?_, ?_⟩⟩ <;> dsimp only <;>
    rw [upd_self] <;> split <;> omega

end Chip8
